import Mathlib

/-!  Verification of the inferex client-side deployment pipeline.

Shallow embedding of the Python sources:
  - inferex/utils/io/compression.py  (ignore resolution, tree walk, archiving)
  - inferex/utils/io/utils.py        (decorator parsing, pipeline validation)
  - inferex/utils/io/scanning.py     (imports, requirements cross-check)
  - inferex/sdk/http.py              (session, 401 reauthentication)
  - inferex/sdk/resources/deployment.py (deploy orchestration, status polling)

Machine strings are modelled as Lean String restricted to ASCII; all
concrete inputs used in theorems are ASCII, where Python and Lean string
primitives agree.
-/

namespace Inferex

/-! ### Python string primitives (ASCII fragment) -/

/-- Python str.rstrip with no argument: drop trailing whitespace. -/
def pyRstrip (s : String) : String :=
  ((s.toList.reverse.dropWhile Char.isWhitespace).reverse).asString

/-- Python str.strip with no argument: drop leading and trailing whitespace. -/
def pyStrip (s : String) : String :=
  (((s.toList.dropWhile Char.isWhitespace).reverse.dropWhile Char.isWhitespace).reverse).asString

/-- Python str.lower over the ASCII fragment. -/
def pyLower (s : String) : String := (s.toList.map Char.toLower).asString

/-- Character-list prefix test. -/
def listIsPrefix : List Char → List Char → Bool
  | [], _ => true
  | _ :: _, [] => false
  | a :: as, b :: bs => a == b && listIsPrefix as bs

/-- Character-list infix search: try every suffix. -/
def infixSearch (needle : List Char) : List Char → Bool
  | [] => listIsPrefix needle []
  | c :: rest => listIsPrefix needle (c :: rest) || infixSearch needle rest

/-- Python substring test `needle in hay`. -/
def strContains (hay needle : String) : Bool :=
  infixSearch needle.toList hay.toList

/-- Python str.startswith. -/
def pyStartsWith (s pre : String) : Bool := listIsPrefix pre.toList s.toList

/-- Python str.replace restricted to the single-character patterns the
source uses. -/
def pyReplaceC (s : String) (pat : Char) (rep : String) : String :=
  (s.toList.foldr
    (fun ch acc => if ch = pat then rep.toList ++ acc else ch :: acc) []).asString

/-- Python str.split with a single-character separator (keeps empty
fields), also the semantics of the split used for dotted module names. -/
def splitCharList (c : Char) : List Char → List (List Char)
  | [] => [[]]
  | ch :: rest =>
    let r := splitCharList c rest
    if ch = c then [] :: r
    else
      match r with
      | [] => [[ch]]
      | g :: gs => (ch :: g) :: gs

/-- String version of splitCharList. -/
def splitOnChar (s : String) (c : Char) : List String :=
  (splitCharList c s.toList).map List.asString

/-- Python str.isalnum over the ASCII fragment: non-empty and every
character alphanumeric. -/
def pyIsAlnum (s : String) : Bool :=
  s ≠ "" && s.toList.all Char.isAlphanum

/-- Python str(x) applied to an optional string: None prints as "None". -/
def pyStrOfOption : Option String → String
  | some s => s
  | none => "None"

/-- Python truthiness of a JSON field that is absent or a string. -/
def pyTruthy : Option String → Bool
  | some s => s ≠ ""
  | none => false

/-! ### inferex/utils/io/compression.py -/

/-- Built-in ignore patterns (compression.py IGNORE_FILE_NODES). -/
def IGNORE_FILE_NODES : List String :=
  ["venv", "__pycache__", ".git", ".pytest_cache", ".egg-info", ".vscode", "dist"]

/-- get_ixignore_filenodes: the optional .ixignore file is given as its list
of raw lines (without the trailing newline readline would carry; rstrip
removes it together with other trailing whitespace).  The source loop
`while (line := f.readline().rstrip()):` appends rstripped lines and stops
at the first line that rstrips to the empty string. -/
def get_ixignore_filenodes (ixignore : Option (List String)) : List String :=
  ".ixignore" :: (match ixignore with
    | none => []
    | some lines => (lines.map pyRstrip).takeWhile (fun l => l ≠ ""))

/-- Effective ignore node list used by gather_file_paths:
`ignore_nodes = IGNORE_FILE_NODES + ixignore_nodes`. -/
def bundlerIgnoreNodes (ixignore : Option (List String)) : List String :=
  IGNORE_FILE_NODES ++ get_ixignore_filenodes ixignore

/-- File-system tree: file with name and byte contents, or directory. -/
inductive FSNode
  | file (name : String) (content : List Nat)
  | dir (name : String) (children : List FSNode)

/-- File skip test of gather_file_paths:
`any(ignore_node in file_or_dir_name for ignore_node in ignore_nodes)`
on the final path component. -/
def fileNameIgnored (ignoreNodes : List String) (name : String) : Bool :=
  ignoreNodes.any (fun node => strContains name node)

/-- An archive entry: path components relative to the project root,
plus the file contents. -/
abbrev Entry := List String × List Nat

mutual

/-- gather_file_paths, one node: files are skipped when any ignore node is
a substring of their final name; directories are pruned when their name is
exactly an ignore node (`dirs[:] = [d for d in dirs if d not in ignore_nodes]`).
os.walk emits each directory as a batch; this embedding traverses children
in listing order, which preserves the set of gathered files. -/
def gatherNode (ignoreNodes : List String) (pfx : List String) :
    FSNode → List Entry
  | .file name content =>
      if fileNameIgnored ignoreNodes name then []
      else [(pfx ++ [name], content)]
  | .dir name children =>
      if name ∈ ignoreNodes then []
      else gatherList ignoreNodes (pfx ++ [name]) children

/-- gather_file_paths over a directory listing. -/
def gatherList (ignoreNodes : List String) (pfx : List String) :
    List FSNode → List Entry
  | [] => []
  | node :: rest =>
      gatherNode ignoreNodes pfx node ++ gatherList ignoreNodes pfx rest

end

/-- gather_file_paths from the project root: walk the root children with
the resolved ignore nodes. -/
def gather_file_paths (ixignore : Option (List String)) (tree : List FSNode) :
    List Entry :=
  gatherList (bundlerIgnoreNodes ixignore) [] tree

/-! ### Content-hash fallback of the deployment identifier.

The module inferex/utils/io/git.py imported by deployment.py is not in the
source snapshot; only callers and two historical variants are
(inferex/io/git.py and inferex/sdk/resources/deployments.py, whose
hash_project_directory passes `get_ixignore_filenodes(target_dir) +
IGNORE_FILE_NODES` to dirhash). -/

/-- Modelled from the spec: inferex/utils/io/git.py is absent from the
source tree.  Spec 4.2: the content-hash fallback enumerates every file not
matched by the ignore spec, and spec 3 requires the IgnoreSpec to be
identical for ContentAddresser and Bundler.  The in-repo variant
sdk/resources/deployments.py hash_project_directory agrees, consulting
`get_ixignore_filenodes(target_dir) + IGNORE_FILE_NODES`. -/
def hasherIgnoreNodes (ixignore : Option (List String)) : List String :=
  get_ixignore_filenodes ixignore ++ IGNORE_FILE_NODES

/-- Modelled from the spec: a stable content+path hash over the set of
non-ignored files (stand-in for dirhash sha1); any function of the entry
list satisfies the influence claims proved below. -/
def contentHash (entries : List Entry) : Nat :=
  entries.foldl
    (fun acc e =>
      let pathMix := e.1.foldl
        (fun a comp => comp.foldl (fun b c => (b * 257 + c.toNat) % (2 ^ 160)) (a * 31 % (2 ^ 160))) acc
      e.2.foldl (fun a b => (a * 263 + b) % (2 ^ 160)) (pathMix * 37 % (2 ^ 160)))
    7

/-- Modelled from the spec: the deployment identifier produced by the
content-hash fallback, truncated to the first 8 hex characters
(`dirhash(...)[:SHORT_SHA_LENGTH]`). -/
def deploymentShaModel (ixignore : Option (List String)) (tree : List FSNode) :
    String :=
  ((Nat.toDigits 16 (contentHash (gatherList (hasherIgnoreNodes ixignore) [] tree))).take 8).asString

/-- Modelled from the spec: git_sha randomize suffix, with the three random
characters supplied as an argument. -/
def gitShaModel (ixignore : Option (List String)) (tree : List FSNode)
    (randomize : Bool) (rand : String) : String :=
  let sha := deploymentShaModel ixignore tree
  if randomize then sha ++ "-" ++ rand else sha

/-! ### Python AST fragment (ast.Call decorators, import statements) -/

/-- Literal values held by ast.Constant nodes. -/
inductive PyLit
  | str (s : String)
  | int (n : Int)
  | bool (b : Bool)
  | pyNone
deriving Repr, DecidableEq

/-- Expression nodes that can stand as a decorator keyword value.  Only
ast.Constant carries a `.value` attribute. -/
inductive PyExpr
  | const (v : PyLit)       -- ast.Constant
  | name (id : String)      -- ast.Name (a variable reference)
  | dict                    -- ast.Dict (value of a ** splat)
  | callExpr                -- any other call-like expression
deriving Repr, DecidableEq

/-- ast.keyword: `arg` is none for a ** splat. -/
structure PyKeyword where
  arg : Option String
  value : PyExpr
deriving Repr, DecidableEq

/-- A decorator node.  traverse_attribute collapses the Name/Attribute
chain of an ast.Call func to its dotted string; non-Call decorators are
skipped by parse_decorators. -/
inductive PyDecorator
  | callDeco (funcDotted : String) (args : List PyExpr) (keywords : List PyKeyword)
  | nonCall
deriving Repr, DecidableEq

/-- Python exception kinds that escape the validation code. -/
inductive PyError
  | valueError (msg : String)
  | attributeError
  | exception (msg : String)
deriving Repr, DecidableEq

/-- Reading `.value` off a keyword value node: ast.Constant has it, the
other node kinds raise AttributeError. -/
def exprValueAttr : PyExpr → Except PyError PyLit
  | .const v => .ok v
  | _ => .error .attributeError

/-- Whether a node is an ast.Constant, i.e. whether it carries a `.value`
attribute. -/
def PyExpr.hasValueAttr : PyExpr → Bool
  | .const _ => true
  | _ => false

/-- VALID_PIPELINE_KWS from utils.py. -/
def VALID_PIPELINE_KWS : List String := ["name", "is_async", "timeout"]

/-- Python `keyword.arg not in VALID_PIPELINE_KWS`, negated: a none arg
(** splat) is not a member. -/
def kwArgAllowed : Option String → Bool
  | some s => VALID_PIPELINE_KWS.contains s
  | none => false

/-- The keyword loop of parse_decorators.  Faithful ordering from the
source: `pipeline_url = keyword.value.value` is evaluated first, then the
whitelist test, then (for `name`) the normalization and isalnum check; a
passing name appends `pipeline_url.lower()` (the original, not the
underscore-normalized form).  A non-string name value has no `.replace`
attribute, raising AttributeError. -/
def processKeywords : List PyKeyword → List String → Except PyError (List String)
  | [], acc => .ok acc
  | kw :: rest, acc =>
    match exprValueAttr kw.value with
    | .error e => .error e
    | .ok url =>
      if ¬ kwArgAllowed kw.arg then
        .error (.valueError
          "Unsupported keyword in pipeline decorator. Supported keywords are: name, is_async, timeout")
      else if kw.arg = some "name" then
        match url with
        | .str s =>
          let normalized := pyLower (pyReplaceC s '_' "-")
          if ¬ pyIsAlnum (pyReplaceC normalized '-' "") then
            .error (.valueError
              ("Invalid pipeline name: " ++ s ++ " Pipeline names must be hyphenated alphanumeric strings"))
          else
            processKeywords rest (acc ++ [pyLower s])
        | _ => .error .attributeError
      else
        processKeywords rest acc

/-- parse_decorators from utils.py: skip non-Call decorators and calls
whose dotted name does not contain "pipeline"; reject positional
arguments; process keywords in order. -/
def parse_decorators : List PyDecorator → Except PyError (List String)
  | [] => .ok []
  | .nonCall :: rest => parse_decorators rest
  | .callDeco funcDotted args keywords :: rest =>
    if ¬ strContains funcDotted "pipeline" then
      parse_decorators rest
    else if args ≠ [] then
      .error (.valueError "Arguments not supported")
    else
      match processKeywords keywords [] with
      | .error e => .error e
      | .ok urls =>
        match parse_decorators rest with
        | .error e => .error e
        | .ok more => .ok (urls ++ more)

/-- Statements relevant to the scans: function definitions with their
decorator lists, `import a.b, c`, `from X import ...` (module is none for
a relative `from . import x`), and anything else. -/
inductive PyStmt
  | functionDef (decorators : List PyDecorator)
  | imp (names : List String)
  | impFrom (module : Option String)
  | other
deriving Repr, DecidableEq

/-- A parsed source file: its statements in ast.walk order. -/
abbrev PyFile := List PyStmt

/-- validate_pipelines inner walk over one file: extend parsed_urls with
the decorator parse of every FunctionDef. -/
def fileUrls : PyFile → Except PyError (List String)
  | [] => .ok []
  | .functionDef ds :: rest =>
    match parse_decorators ds with
    | .error e => .error e
    | .ok urls =>
      match fileUrls rest with
      | .error e => .error e
      | .ok more => .ok (urls ++ more)
  | _ :: rest => fileUrls rest

/-- validate_pipelines outer walk over all discovered files. -/
def collectUrls : List PyFile → Except PyError (List String)
  | [] => .ok []
  | f :: rest =>
    match fileUrls f with
    | .error e => .error e
    | .ok urls =>
      match collectUrls rest with
      | .error e => .error e
      | .ok more => .ok (urls ++ more)

/-- pre_walk_dir_check of scanning.py: no python files found raises a
plain Exception. -/
def preWalkCheck (files : List PyFile) : Except PyError Unit :=
  if files.isEmpty then
    .error (.exception "No python files found in or directly beneath the project path. Is this the right directory?")
  else .ok ()

/-- validate_pipelines from utils.py: gather every decorator-declared
pipeline url across the project, then require uniqueness
(`len(set(parsed_urls)) < len(parsed_urls)` raises). -/
def validate_pipelines (files : List PyFile) : Except PyError (List String) :=
  match preWalkCheck files with
  | .error e => .error e
  | .ok _ =>
    match collectUrls files with
    | .error e => .error e
    | .ok urls =>
      if urls.eraseDups.length < urls.length then
        .error (.valueError "Pipeline names must be unique.")
      else .ok urls

/-! ### inferex/utils/io/scanning.py -/

/-- BUILTIN_MODULES from scanning.py. -/
def BUILTIN_MODULES : List String :=
  ["__future__", "__main__", "_dummy_thread", "_thread", "abc", "aifc", "and",
   "argparse", "array", "ast", "asynchat", "asyncio", "asyncore", "atexit",
   "audioop", "base64", "bdb", "binascii", "binhex", "bisect", "builtins",
   "bytes", "bz2", "calendar", "cgi", "cgitb", "chunk", "cmath", "cmd", "code",
   "codecs", "codeop", "collections", "colorsys", "compileall", "concurrent",
   "configparser", "contextlib", "contextvars", "copy", "copyreg", "crypt",
   "csv", "ctypes", "curses", "dataclasses", "datetime", "dbm", "decimal",
   "dict", "difflib", "dis", "distutils", "doctest", "dummy_threading",
   "email", "ensurepip", "enum", "errno", "faulthandler", "fcntl", "filecmp",
   "fileinput", "fnmatch", "formatter", "fractions", "ftplib", "functools",
   "gc", "getopt", "getpass", "gettext", "glob", "grp", "gzip", "hashlib",
   "heapq", "hmac", "html", "http", "imaplib", "imghdr", "imp", "importlib",
   "inspect", "int", "io", "ipaddress", "itertools", "json", "keyword",
   "linecache", "list", "locale", "logging", "lzma", "mailbox", "mailcap",
   "marshal", "math", "mimetypes", "mmap", "modulefinder", "msilib", "msvcrt",
   "multiprocessing", "netrc", "nis", "nntplib", "numbers", "operator",
   "optparse", "os", "ossaudiodev", "parser", "pathlib", "pdb", "pickle",
   "pickletools", "pipes", "pkgutil", "platform", "plistlib", "poplib",
   "posix", "pprint", "pty", "pwd", "py_compile", "pyclbr", "pydoc", "queue",
   "quopri", "random", "re", "readline", "reprlib", "resource", "rlcompleter",
   "runpy", "sched", "secrets", "select", "selectors", "set", "shelve",
   "shlex", "shutil", "signal", "site", "smtpd", "smtplib", "sndhdr",
   "socket", "socketserver", "spwd", "sqlite3", "ssl", "stat", "statistics",
   "str", "string", "stringprep", "struct", "subprocess", "sunau", "symbol",
   "symtable", "sys", "sysconfig", "syslog", "tabnanny", "tarfile",
   "telnetlib", "tempfile", "termios", "test", "textwrap", "threading",
   "time", "timeit", "tkinter", "token", "tokenize", "trace", "traceback",
   "tracemalloc", "tty", "turtle", "types", "typing", "unicodedata",
   "unittest", "urllib", "uu", "uuid", "venv", "warnings", "wave", "weakref",
   "webbrowser", "winreg", "winsound", "wsgiref", "xdrlib", "xml", "xmlrpc",
   "zipapp", "zipfile", "zipimport", "zlib"]

/-- is_standard_lib from scanning.py. -/
def is_standard_lib (module : String) : Bool := BUILTIN_MODULES.contains module

/-- Root module name: `name.split(".")[0]`. -/
def firstDotted (s : String) : String := (splitOnChar s '.').headD s

/-- The import-collection walk of get_imports.  An ast.ImportFrom node for
a relative import (`from . import x`) has `module = None`, and
`node.module.split(".")` raises AttributeError. -/
def collectImports : List PyStmt → Except PyError (List String)
  | [] => .ok []
  | .imp names :: rest =>
    match collectImports rest with
    | .error e => .error e
    | .ok more => .ok (names.map firstDotted ++ more)
  | .impFrom none :: _ => .error .attributeError
  | .impFrom (some m) :: rest =>
    match collectImports rest with
    | .error e => .error e
    | .ok more => .ok (firstDotted m :: more)
  | .other :: rest => collectImports rest
  | .functionDef _ :: rest => collectImports rest

/-- collectImports over all files, in discovery order. -/
def collectImportsAll : List PyFile → Except PyError (List String)
  | [] => .ok []
  | f :: rest =>
    match collectImports f with
    | .error e => .error e
    | .ok ms =>
      match collectImportsAll rest with
      | .error e => .error e
      | .ok more => .ok (ms ++ more)

/-- get_imports from scanning.py.  `list(set(modules))` is modelled as
first-occurrence deduplication; only membership is consumed downstream. -/
def get_imports (files : List PyFile) : Except PyError (List String) :=
  match preWalkCheck files with
  | .error e => .error e
  | .ok _ =>
    match collectImportsAll files with
    | .error e => .error e
    | .ok ms => .ok ms.eraseDups

/-- Requirement-line normalization of scan_requirements: version operators
become spaces, hyphens become underscores, first space-delimited token,
stripped. -/
def normalizeReqLine (l : String) : String :=
  let l := pyReplaceC (pyReplaceC (pyReplaceC (pyReplaceC (pyReplaceC l '<' " ") '>' " ") '=' " ") '~' " ") '!' " "
  let l := pyReplaceC l '-' "_"
  pyStrip ((splitOnChar l ' ').headD "")

/-- scan_requirements from scanning.py: a missing requirements.txt is the
empty line list; comment lines are skipped; empty normalized names are
dropped. -/
def scan_requirements (reqLines : Option (List String)) : List String :=
  let lines := match reqLines with | none => [] | some ls => ls
  (lines.filter (fun l => ¬ pyStartsWith l "#")).map normalizeReqLine
    |>.filter (fun l => l ≠ "")

/-- validate_requirements_txt from scanning.py.  The hard raise on a
missing requirement is commented out in the source; the function only
emits textual warnings, returned here as a list.  An AttributeError from
get_imports propagates. -/
def validate_requirements_txt (reqLines : Option (List String))
    (files : List PyFile) : Except PyError (List String) :=
  let requirements := scan_requirements reqLines
  match get_imports files with
  | .error e => .error e
  | .ok imported =>
    let missing := (imported.filter
        (fun m => ¬ (is_standard_lib m || m = "inferex" || requirements.contains m))).map
      (fun m => "!!! Expected imported module " ++ m ++ " to be in requirements.txt")
    let unused := requirements.filter (fun r => ¬ imported.contains r)
    let unusedWarns :=
      if unused.isEmpty then []
      else ["Unused dependencies found: " ++ String.intercalate ", " unused ++
            ". Removing these could improve deployment time."]
    .ok (missing ++ unusedWarns)

/-! ### inferex/sdk/http.py — session, hooks, reauthentication -/

/-- The slice of a server response the client code inspects: the HTTP
status, the JSON `detail` field, the status-poll body fields, and the
`name` field of a project-create response.  A `.get` on an absent field is
none. -/
structure HttpResponse where
  status : Nat
  detail : Option String := none
  state : Option String := none
  stage : Option String := none
  substage : Option String := none
  exception : Option String := none
  name : Option String := none
deriving Repr, DecidableEq

/-- `response.ok` of requests: true exactly below 400. -/
def HttpResponse.isOk (r : HttpResponse) : Bool := r.status < 400

/-- Outcome of `init()` (login from environment variables): a new token, a
ValueError because the credentials are absent from the environment, or an
HTTPError because the login request itself returned a bad status. -/
inductive ReauthResult
  | newToken (t : String)
  | missingCreds
  | loginHttpError (status : Nat)
deriving Repr, DecidableEq

/-- Errors surfaced by ApiClientSession.request: every exception escaping
the inner request (including HTTPError raised by a response hook) is
wrapped into InferexApiError carrying the status and detail of the
exception response when present. -/
inductive ApiError
  | httpStatusError (status : Nat) (detail : Option String)
  | loginError (status : Nat)
deriving Repr, DecidableEq

/-- A request put on the wire: the bearer token it carried and whether the
handle_errors hook was installed for its response (the 401 replay is sent
with `hooks = [log_response]` only). -/
structure SentRequest where
  token : String
  reauthHookActive : Bool
deriving Repr, DecidableEq

/-- One environment for a single logical request: the server response to
it, what init() would do if invoked, and the server response to a replay. -/
structure SessionEnv where
  response : HttpResponse
  reauth : ReauthResult
  replayResponse : HttpResponse
deriving Repr, DecidableEq

deriving instance DecidableEq for Except

/-- Result of ApiClientSession.request: the requests actually sent and
either a returned response or a raised error. -/
structure SessionResult where
  sent : List SentRequest
  outcome : Except ApiError HttpResponse
deriving Repr, DecidableEq

/-- ApiClientSession.request together with its handle_errors response
hook.  On 401: one `init()` reauthentication; a ValueError from init makes
`resp.raise_for_status()` surface the original 401; a login HTTP failure
propagates that login error; on success the original request is replayed
once with the updated bearer token and with the handle_errors hook
removed, and the replayed response is returned as-is.  Any other status
of 400 or above is raised by `resp.raise_for_status()` and wrapped; below
400 the response is returned. -/
def sessionRequest (tok : String) (env : SessionEnv) : SessionResult :=
  let original : SentRequest := ⟨tok, true⟩
  if env.response.status = 401 then
    match env.reauth with
    | .newToken t => ⟨[original, ⟨t, false⟩], .ok env.replayResponse⟩
    | .missingCreds => ⟨[original], .error (.httpStatusError 401 env.response.detail)⟩
    | .loginHttpError s => ⟨[original], .error (.loginError s)⟩
  else if 400 ≤ env.response.status then
    ⟨[original], .error (.httpStatusError env.response.status env.response.detail)⟩
  else
    ⟨[original], .ok env.response⟩

/-! ### poll_deployment_status (sdk/resources/deployment.py) -/

/-- How a finite run of the status generator ended: a `break` (terminal
state or non-ok response), an exception propagating out of the generator,
or the supplied response list ran out with the loop still going (the code
would sleep and poll again). -/
inductive PollEnding
  | done
  | raised (e : ApiError)
  | ranOut
deriving Repr, DecidableEq

/-- Observed behaviour of a finite run of poll_deployment_status: the
yielded lines, the number of status requests issued, and how it ended. -/
structure PollResult where
  lines : List String
  polls : Nat
  ending : PollEnding
deriving Repr, DecidableEq

/-- Terminal test of the poller: `state in ("Failed", "SUCCESS")`. -/
def isTerminalState (st : Option String) : Bool :=
  st = some "Failed" || st = some "SUCCESS"

/-- The diagnostic line yielded for a non-ok poll response. -/
def httpErrorLine (st : Nat) (det : String) : String :=
  s!"HTTP {st} Error during deployment: {det}"

/-- The line yielded when the stage changes. -/
def stageLine (s : String) : String := s!"→ {s}"

/-- The line yielded when the substage changes. -/
def substageLine (s : String) : String := s!"   ↳ {s}"

/-- The poller loop, carrying the previously observed stage and substage
(both initialized to ""), consuming one SessionEnv per cycle.  Each cycle
issues the status request through the session; an error raised there
escapes the generator.  A returned non-ok response yields one diagnostic
line and breaks.  Otherwise a truthy changed stage yields an arrow line, a
truthy changed substage yields an indented line, a truthy exception is
yielded verbatim, and a terminal state breaks. -/
def pollLoop (tok : String) (stage substage : String) :
    List SessionEnv → PollResult
  | [] => ⟨[], 0, .ranOut⟩
  | env :: rest =>
    match (sessionRequest tok env).outcome with
    | .error e => ⟨[], 1, .raised e⟩
    | .ok r =>
      if ¬ r.isOk then
        ⟨[httpErrorLine r.status (pyStrOfOption r.detail)], 1, .done⟩
      else
        let (stageLines, stage1) :=
          match r.stage with
          | some s => if s ≠ "" ∧ stage ≠ s then ([stageLine s], s) else ([], stage)
          | none => ([], stage)
        let (subLines, substage1) :=
          match r.substage with
          | some s => if s ≠ "" ∧ substage ≠ s then ([substageLine s], s) else ([], substage)
          | none => ([], substage)
        let excLines :=
          match r.exception with
          | some e => if e ≠ "" then [e] else []
          | none => []
        let cycleLines := stageLines ++ subLines ++ excLines
        if isTerminalState r.state then
          ⟨cycleLines, 1, .done⟩
        else
          let tail := pollLoop tok stage1 substage1 rest
          ⟨cycleLines ++ tail.lines, tail.polls + 1, tail.ending⟩

/-- poll_deployment_status seeded with empty previous stage and substage. -/
def poll_deployment_status (tok : String) (envs : List SessionEnv) : PollResult :=
  pollLoop tok "" "" envs

/-! ### make_archive and the deploy orchestration -/

/-- Outcome of `tarfile.open(archive_path, "w:xz")`. -/
inductive TarOpen
  | tarOk
  | compressionError
deriving Repr, DecidableEq

/-- Result of make_archive: opening the archive raises inside the try, the
except clause logs it, and the finally clause evaluates `tar.close()` with
`tar` unbound, raising UnboundLocalError.  Otherwise the add loop runs;
an archive-format error while adding is caught and logged, the loop stops,
and the accumulated bundle size is returned with the entries archived so
far (`bundle_size += file_path.stat().st_size` precedes `tar.add`). -/
inductive ArchiveOutcome
  | raisedUnboundLocal
  | returned (bundleSize : Nat) (archived : List (List String)) (errorLogged : Bool)
deriving Repr, DecidableEq

/-- The add loop of make_archive over the gathered entries; `addFails`
lists the relative paths whose `tar.add` raises an archive-format error. -/
def addLoop (addFails : List (List String)) (acc : Nat)
    (archived : List (List String)) : List Entry → Nat × List (List String) × Bool
  | [] => (acc, archived, false)
  | (p, c) :: rest =>
    let acc1 := acc + c.length
    if addFails.contains p then (acc1, archived, true)
    else addLoop addFails acc1 (archived ++ [p]) rest

/-- make_archive from compression.py over the modelled file system. -/
def make_archive (openResult : TarOpen) (addFails : List (List String))
    (ixignore : Option (List String)) (tree : List FSNode) : ArchiveOutcome :=
  match openResult with
  | .compressionError => .raisedUnboundLocal
  | .tarOk =>
    let (size, archived, errored) := addLoop addFails 0 [] (gather_file_paths ixignore tree)
    .returned size archived errored

/-- Observable events of one deploy invocation, in program order.  Network
events are the project-create request and the bundle upload; validation
completions are recorded when the respective call returns normally. -/
inductive Event
  | pipelinesValidated
  | requirementsValidated
  | configLoaded
  | netCreateProject
  | computedSha
  | archiveErrorLogged
  | netUpload
  | tempCleanup
deriving Repr, DecidableEq

/-- Which events are network requests. -/
def Event.isNet : Event → Bool
  | .netCreateProject => true
  | .netUpload => true
  | _ => false

/-- Errors escaping deploy: DeployFailureError raised by deploy itself, an
uncaught Python exception from validate_requirements_txt (its hard raise
is commented out, so only AttributeError escapes), a config-schema error
from get_project_config, the UnboundLocalError of make_archive, or an
InferexApiError from the session. -/
inductive DeployError
  | deployFailure (msg : String)
  | uncaught (e : PyError)
  | configError (msg : String)
  | unboundLocalError
  | apiError (e : ApiError)
deriving Repr, DecidableEq

/-- What deploy returns: the upload response, or the lazy status sequence
seeded with the deployment sha (creating the generator issues no poll
request). -/
inductive DeployResult
  | resp (r : HttpResponse)
  | streamSeq (sha : String)
deriving Repr, DecidableEq

/-- Everything the environment feeds a single deploy invocation. -/
structure DeployEnv where
  files : List PyFile
  requirements : Option (List String)
  configResult : Except String (Option String)
  dirName : String
  createEnv : SessionEnv
  ixignore : Option (List String)
  tree : List FSNode
  force : Bool
  rand : String
  archiveOpen : TarOpen
  addFails : List (List String)
  stream : Bool
  uploadEnv : SessionEnv

/-- deploy from sdk/resources/deployment.py as a straight-line function
producing the ordered event trace and the result.  Order of operations in
the source: validate_pipelines (failures become DeployFailureError),
validate_requirements_txt (only its AttributeError can escape, uncaught),
get_project_config, name defaulting, project.create via the session (a
raised session error propagates; a returned non-ok response raises
DeployFailureError), git_sha, the NamedTemporaryFile block containing
make_archive and the upload, and finally either the poll generator (not
yet executed) or the upload response. -/
def deploy (tok : String) (env : DeployEnv) : List Event × Except DeployError DeployResult :=
  match validate_pipelines env.files with
  | .error e =>
    ([], .error (.deployFailure (match e with
      | .valueError m => m
      | .attributeError => "AttributeError"
      | .exception m => m)))
  | .ok _ =>
  let ev1 : List Event := [.pipelinesValidated]
  match validate_requirements_txt env.requirements env.files with
  | .error e => (ev1, .error (.uncaught e))
  | .ok _ =>
  let ev2 := ev1 ++ [.requirementsValidated]
  match env.configResult with
  | .error m => (ev2, .error (.configError m))
  | .ok nameOpt =>
  let ev3 := ev2 ++ [.configLoaded]
  let projectName :=
    match nameOpt with
    | some n => if n = "" then (if env.dirName = "" then "untitled" else env.dirName) else n
    | none => if env.dirName = "" then "untitled" else env.dirName
  let _ := projectName
  let ev4 := ev3 ++ [.netCreateProject]
  match (sessionRequest tok env.createEnv).outcome with
  | .error e => (ev4, .error (.apiError e))
  | .ok createResp =>
  if ¬ createResp.isOk then
    (ev4, .error (.deployFailure "Creating project failed."))
  else
  let sha := gitShaModel env.ixignore env.tree env.force env.rand
  let ev5 := ev4 ++ [.computedSha]
  match make_archive env.archiveOpen env.addFails env.ixignore env.tree with
  | .raisedUnboundLocal => (ev5 ++ [.tempCleanup], .error .unboundLocalError)
  | .returned _ _ errored =>
  let ev6 := ev5 ++ (if errored then [Event.archiveErrorLogged] else []) ++ [Event.netUpload]
  match (sessionRequest tok env.uploadEnv).outcome with
  | .error e => (ev6 ++ [.tempCleanup], .error (.apiError e))
  | .ok uploadResp =>
  if env.stream then
    (ev6 ++ [.tempCleanup], .ok (.streamSeq sha))
  else
    (ev6 ++ [.tempCleanup], .ok (.resp uploadResp))

/-- The C5 trace discipline: scanning the event list left to right, a
network event is admissible only once both validations have completed. -/
def netOnlyAfterValidation : Bool → Bool → List Event → Bool
  | _, _, [] => true
  | p, r, e :: rest =>
    match e with
    | .pipelinesValidated => netOnlyAfterValidation true r rest
    | .requirementsValidated => netOnlyAfterValidation p true rest
    | .netCreateProject => p && r && netOnlyAfterValidation p r rest
    | .netUpload => p && r && netOnlyAfterValidation p r rest
    | _ => netOnlyAfterValidation p r rest

/-- Deploy reaches the bundling step: both validators and the config load
return normally and the project-create request comes back ok. -/
def reachesBundle (tok : String) (env : DeployEnv) : Bool :=
  (match validate_pipelines env.files with | .ok _ => true | .error _ => false) &&
  (match validate_requirements_txt env.requirements env.files with
    | .ok _ => true | .error _ => false) &&
  (match env.configResult with | .ok _ => true | .error _ => false) &&
  (match (sessionRequest tok env.createEnv).outcome with
    | .ok r => r.isOk | .error _ => false)

/-! ### Spec-side predicates used for comparison -/

/-- A single recognized pipeline decorator carrying only `name = s`. -/
def mkNameDeco (s : String) : List PyDecorator :=
  [.callDeco "inferex.pipeline" [] [⟨some "name", .const (.str s)⟩]]

/-- Whether parse_decorators accepts a lone `name = s` keyword. -/
def nameAccepted (s : String) : Bool :=
  match parse_decorators (mkNameDeco s) with
  | .ok _ => true
  | .error _ => false

/-- The condition the source actually enforces on a pipeline name:
normalize underscores to hyphens, lower-case, drop hyphens, and require a
non-empty all-alphanumeric remainder. -/
def specNameOk (s : String) : Bool :=
  pyIsAlnum (pyReplaceC (pyLower (pyReplaceC s '_' "-")) '-' "")

/-- The regular expression of the claim, written out: groups of lower-case
alphanumerics separated by single hyphens, at least one group. -/
def specRegexMatch (s : String) : Bool :=
  (splitOnChar s '-').all (fun p => p ≠ "" && p.toList.all (fun c => c.isLower || c.isDigit))

/-! ### Concrete instances used by counterexamples and witnesses -/

/-- A session environment whose request draws a 401 and whose
reauthentication login itself fails over HTTP with a 500. -/
def envLoginFails : SessionEnv :=
  ⟨{ status := 401, detail := some "expired" }, .loginHttpError 500, { status := 200 }⟩

/-- A session environment whose request draws a 401 and whose
reauthentication succeeds with a fresh token. -/
def envReauthOk : SessionEnv :=
  ⟨{ status := 401, detail := some "expired" }, .newToken "fresh", { status := 204 }⟩

/-- An ok status-poll response environment with the given body fields. -/
def okPollEnv (st sg ss : String) : SessionEnv :=
  ⟨{ status := 200, state := some st, stage := some sg, substage := some ss },
   .missingCreds, { status := 200 }⟩

/-- The poll-response sequence of the claim, with the literal label
Succeeded in the third response. -/
def pollSeqSucceeded : List SessionEnv :=
  [okPollEnv "Pending" "build" "", okPollEnv "Running" "build" "install deps",
   okPollEnv "Succeeded" "build" "install deps"]

/-- The same sequence with the label the source treats as terminal. -/
def pollSeqSUCCESS : List SessionEnv :=
  [okPollEnv "Pending" "build" "", okPollEnv "Running" "build" "install deps",
   okPollEnv "SUCCESS" "build" "install deps"]

/-- A status poll drawing a plain 500 from the server. -/
def envPoll500 : SessionEnv :=
  ⟨{ status := 500, detail := some "boom" }, .missingCreds, { status := 200 }⟩

/-- A status poll drawing a 401, reauthenticating successfully, and
receiving a 502 on the replay. -/
def envPollReplay502 : SessionEnv :=
  ⟨{ status := 401 }, .newToken "fresh", { status := 502, detail := some "bad gateway" }⟩

/-- A minimal deploy environment that passes validation, registers the
project, and then hits an archive-format error while adding
weights.bin to the archive. -/
def envDeployAddFails : DeployEnv :=
  { files := [[.other]]
  , requirements := none
  , configResult := .ok (some "proj")
  , dirName := "proj"
  , createEnv := ⟨{ status := 200, name := some "proj" }, .missingCreds, { status := 200 }⟩
  , ixignore := none
  , tree := [.file "main.py" [1, 2], .file "weights.bin" [1, 2, 3]]
  , force := false
  , rand := ""
  , archiveOpen := .tarOk
  , addFails := [["weights.bin"]]
  , stream := false
  , uploadEnv := ⟨{ status := 200 }, .missingCreds, { status := 200 }⟩ }

/-- The same deploy environment except that opening the tar archive itself
fails with a CompressionError. -/
def envDeployOpenFails : DeployEnv :=
  { envDeployAddFails with archiveOpen := .compressionError, addFails := [] }

/-- A project tree holding a user-ignored data file next to a source file. -/
def treeWithData (dataContent : List Nat) : List FSNode :=
  [.file "data.bin" dataContent, .file "main.py" [9]]

/-- A project whose only notable statement is a relative import. -/
def relImportProject : List PyFile := [[.impFrom none]]

/-! ## Helper lemmas -/

theorem takeWhile_append_of_all {α : Type} (p : α → Bool) (l₁ l₂ : List α)
    (h : ∀ x ∈ l₁, p x = true) :
    (l₁ ++ l₂).takeWhile p = l₁ ++ l₂.takeWhile p := by
  induction l₁ with
  | nil => simp
  | cons a l ih =>
    have ha : p a = true := h a (by simp)
    simp [List.takeWhile_cons, ha]
    exact ih (fun x hx => h x (by simp [hx]))

theorem takeWhile_eq_self_of_all {α : Type} (p : α → Bool) (l : List α)
    (h : ∀ x ∈ l, p x = true) : l.takeWhile p = l := by
  have := takeWhile_append_of_all p l [] h
  simpa using this

theorem gatherList_append (ign pfx : List String) (l₁ l₂ : List FSNode) :
    gatherList ign pfx (l₁ ++ l₂) =
      gatherList ign pfx l₁ ++ gatherList ign pfx l₂ := by
  induction l₁ with
  | nil => simp [gatherList]
  | cons a l ih => simp [gatherList, ih]

theorem gatherList_cons_ignored_file (ign pfx : List String) (n : String)
    (c : List Nat) (rest : List FSNode)
    (h : fileNameIgnored ign n = true) :
    gatherList ign pfx (FSNode.file n c :: rest) = gatherList ign pfx rest := by
  simp [gatherList, gatherNode, h]

theorem gatherList_drop_ignored_file (ign pfx : List String) (n : String)
    (c : List Nat) (front rest : List FSNode)
    (h : fileNameIgnored ign n = true) :
    gatherList ign pfx (front ++ FSNode.file n c :: rest) =
      gatherList ign pfx (front ++ rest) := by
  rw [gatherList_append, gatherList_append, gatherList_cons_ignored_file ign pfx n c rest h]

theorem fileNameIgnored_append_comm (a b : List String) (n : String) :
    fileNameIgnored (a ++ b) n = fileNameIgnored (b ++ a) n := by
  simp [fileNameIgnored, List.any_append, Bool.or_comm]

theorem collectImports_error_is_attribute (f : PyFile) :
    ∀ e, collectImports f = .error e → e = .attributeError := by
  induction f with
  | nil => intro e he; simp [collectImports] at he
  | cons s rest ih =>
    intro e he
    cases s with
    | functionDef ds => exact ih e (by simpa [collectImports] using he)
    | imp names =>
      rw [collectImports] at he
      cases hr : collectImports rest with
      | error e2 => rw [hr] at he; simp at he; subst he; exact ih _ hr
      | ok more => rw [hr] at he; simp at he
    | impFrom m =>
      cases m with
      | none => rw [collectImports] at he; simp at he; subst he; rfl
      | some v =>
        rw [collectImports] at he
        cases hr : collectImports rest with
        | error e2 => rw [hr] at he; simp at he; subst he; exact ih _ hr
        | ok more => rw [hr] at he; simp at he
    | other => exact ih e (by simpa [collectImports] using he)

theorem collectImports_relative_error (f : PyFile)
    (h : PyStmt.impFrom none ∈ f) :
    collectImports f = .error .attributeError := by
  induction f with
  | nil => cases h
  | cons s rest ih =>
    cases s with
    | functionDef ds =>
      have hr := ih (by simpa using h)
      simpa [collectImports] using hr
    | imp names =>
      have hr := ih (by simpa using h)
      simp [collectImports, hr]
    | impFrom m =>
      cases m with
      | none => simp [collectImports]
      | some v =>
        have hmem : PyStmt.impFrom none ∈ rest := by
          rcases List.mem_cons.mp h with h1 | h1
          · cases h1
          · exact h1
        simp [collectImports, ih hmem]
    | other =>
      have hr := ih (by simpa using h)
      simpa [collectImports] using hr

theorem collectImportsAll_relative_error (files : List PyFile) (f : PyFile)
    (hf : f ∈ files) (hs : PyStmt.impFrom none ∈ f) :
    collectImportsAll files = .error .attributeError := by
  induction files with
  | nil => cases hf
  | cons g rest ih =>
    rcases List.mem_cons.mp hf with h1 | h1
    · subst h1
      simp [collectImportsAll, collectImports_relative_error f hs]
    · cases hg : collectImports g with
      | error e =>
        have := collectImports_error_is_attribute g e hg
        subst this
        simp [collectImportsAll, hg]
      | ok ms => simp [collectImportsAll, hg, ih h1]

/-! ## Claim theorems -/

/-- C7 counterexample: with a .ixignore file whose lines are "a", a blank
line, then "b", the reader stops at the blank line, so the later non-empty
line "b" is not appended — refuting the claim that a blank line in the
middle does not prevent later non-empty lines from being included. -/
theorem claim_c7_counterexample :
    get_ixignore_filenodes (some ["a", "", "b"]) = [".ixignore", "a"] ∧
    "b" ∉ get_ixignore_filenodes (some ["a", "", "b"]) := by
  decide

/-- C7 (amended): the resolver appends the rstripped ignore-file lines in
order only up to the first line that strips to empty — lines after a blank
line are dropped — and a missing ignore file yields only the built-in
marker entry without error. -/
theorem claim_c7_theorem (pre post : List String)
    (h : ∀ l ∈ pre, pyRstrip l ≠ "") :
    get_ixignore_filenodes (some (pre ++ "" :: post)) = ".ixignore" :: pre.map pyRstrip ∧
    get_ixignore_filenodes (some pre) = ".ixignore" :: pre.map pyRstrip ∧
    get_ixignore_filenodes none = [".ixignore"] := by
  have hall : ∀ x ∈ pre.map pyRstrip, (decide (x ≠ "")) = true := by
    intro x hx
    rcases List.mem_map.mp hx with ⟨l, hl, hlx⟩
    subst hlx
    simpa using h l hl
  have h0 : pyRstrip "" = "" := by decide
  refine ⟨?_, ?_, by rfl⟩
  · have : ((pre ++ "" :: post).map pyRstrip).takeWhile (fun l => decide (l ≠ "")) =
        pre.map pyRstrip := by
      rw [List.map_append]
      rw [takeWhile_append_of_all _ _ _ hall]
      have h1 : (("" :: post).map pyRstrip).takeWhile (fun l => decide (l ≠ "")) = [] := by
        rw [List.map_cons, h0]
        simp [List.takeWhile_cons]
      simp [h0, h1]
    simpa [get_ixignore_filenodes] using this
  · have := takeWhile_eq_self_of_all (fun l => decide (l ≠ "")) (pre.map pyRstrip) hall
    simpa [get_ixignore_filenodes] using this

/-- C7 witness: concrete lines before the blank are kept, later ones are
settled by the theorem. -/
theorem claim_c7_witness :
    (∀ l ∈ (["a", "b c"] : List String), pyRstrip l ≠ "") ∧
    get_ixignore_filenodes (some (["a", "b c"] ++ "" :: ["d"])) =
      ".ixignore" :: (["a", "b c"] : List String).map pyRstrip :=
  ⟨by decide, ( claim_c7_theorem ["a", "b c"] ["d"] (by decide)).1⟩

/-- C9: a project containing a relative import (`from . import x`, whose
ImportFrom node has no module) makes the import-collection step and hence
the whole advisory requirements cross-check raise AttributeError instead
of completing with warnings. -/
theorem claim_c9_theorem (reqLines : Option (List String)) (files : List PyFile)
    (f : PyFile) (hf : f ∈ files) (hs : PyStmt.impFrom none ∈ f) :
    get_imports files = .error .attributeError ∧
    validate_requirements_txt reqLines files = .error .attributeError := by
  have hne : files.isEmpty = false := by
    cases files with
    | nil => cases hf
    | cons a l => rfl
  have hall := collectImportsAll_relative_error files f hf hs
  have hgi : get_imports files = .error .attributeError := by
    simp [get_imports, preWalkCheck, hne, hall]
  exact ⟨hgi, by simp [validate_requirements_txt, hgi]⟩

/-- C9 witness: the one-file project `[from . import x]`. -/
theorem claim_c9_witness :
    ([PyStmt.impFrom none] ∈ relImportProject ∧
     PyStmt.impFrom none ∈ ([PyStmt.impFrom none] : PyFile)) ∧
    (get_imports relImportProject = .error .attributeError ∧
     validate_requirements_txt none relImportProject = .error .attributeError) :=
  ⟨⟨by decide, by decide⟩,
   claim_c9_theorem none relImportProject [PyStmt.impFrom none] (by decide) (by decide)⟩

/-- C10: for a recognized pipeline decorator whose single keyword value is
not a literal constant (a variable reference, a ** splat dict, or any
other expression), parse_decorators evaluates `keyword.value.value` before
the keyword-whitelist test and raises AttributeError — never a validation
ValueError — whatever the keyword name, including names outside the
whitelist. -/
theorem claim_c10_theorem (k : Option String) (e : PyExpr)
    (h : e.hasValueAttr = false) :
    parse_decorators [.callDeco "inferex.pipeline" [] [⟨k, e⟩]] =
      .error .attributeError := by
  have hc : strContains "inferex.pipeline" "pipeline" = true := by decide
  cases e <;>
    simp_all [parse_decorators, processKeywords, exprValueAttr, PyExpr.hasValueAttr, hc]

/-- C10 witness: `timeout=some_variable`. -/
theorem claim_c10_witness :
    (PyExpr.name "some_variable").hasValueAttr = false ∧
    parse_decorators [.callDeco "inferex.pipeline" []
        [⟨some "timeout", .name "some_variable"⟩]] = .error .attributeError :=
  ⟨by decide, claim_c10_theorem (some "timeout") (.name "some_variable") (by decide)⟩

/-- C2 counterexample: `name="My_Pipeline"` is accepted, not rejected —
normalization to "my-pipeline" happens before the check, which then
passes — and `name="a--b"` is accepted although its normalized form does
not match the regular expression of the claim, refuting the stated
equivalence. -/
theorem claim_c2_counterexample :
    parse_decorators (mkNameDeco "My_Pipeline") = .ok ["my_pipeline"] ∧
    nameAccepted "a--b" = true ∧
    specRegexMatch (pyLower (pyReplaceC "a--b" '_' "-")) = false := by
  decide

/-- C2 (amended): validation normalizes underscores to hyphens and
lower-cases before checking; under that rule both `name="My_Pipeline"` and
`name="my-pipeline"` are accepted, and in general a string literal passes
exactly when its normalized form with hyphens removed is a non-empty
alphanumeric token — a strictly weaker condition than the claimed regular
expression. -/
theorem claim_c2_theorem :
    (∀ s, nameAccepted s = specNameOk s) ∧
    parse_decorators (mkNameDeco "my-pipeline") = .ok ["my-pipeline"] ∧
    parse_decorators (mkNameDeco "My_Pipeline") = .ok ["my_pipeline"] ∧
    parse_decorators (mkNameDeco "bad!") =
      .error (.valueError
        "Invalid pipeline name: bad! Pipeline names must be hyphenated alphanumeric strings") := by
  refine ⟨fun s => ?_, by decide, by decide, by decide⟩
  have hc : strContains "inferex.pipeline" "pipeline" = true := by decide
  have hk : kwArgAllowed (some "name") = true := by decide
  cases hb : pyIsAlnum (pyReplaceC (pyLower (pyReplaceC s '_' "-")) '-' "") with
  | false =>
    simp [nameAccepted, mkNameDeco, parse_decorators, processKeywords, exprValueAttr,
      hc, hk, hb, specNameOk]
  | true =>
    simp [nameAccepted, mkNameDeco, parse_decorators, processKeywords, exprValueAttr,
      hc, hk, hb, specNameOk]

/-- C3 counterexample: a 401 whose reauthentication login fails at the
HTTP level (here with a 500) surfaces the login error, not the original
401 error — refuting the claim that any reauthentication failure surfaces
the original 401 response error. -/
theorem claim_c3_counterexample :
    (sessionRequest "old" envLoginFails).outcome = .error (.loginError 500) ∧
    (sessionRequest "old" envLoginFails).outcome ≠
      .error (.httpStatusError 401 (some "expired")) := by
  decide

/-- C3 (amended): on a 401 the session reauthenticates exactly once; on
success it replays the original request exactly once carrying the new
bearer token and with the error-handling hook removed (so no second
reauthentication), returning the replayed response as-is; if
reauthentication fails because the environment lacks credentials
(ValueError), the original 401 error is surfaced; if the login request
itself fails over HTTP, that login error is surfaced instead. -/
theorem claim_c3_theorem (tok : String) (env : SessionEnv)
    (h : env.response.status = 401) :
    (match env.reauth with
     | .newToken t =>
         (sessionRequest tok env).sent =
           [⟨tok, true⟩, ⟨t, false⟩] ∧
         (sessionRequest tok env).outcome = .ok env.replayResponse
     | .missingCreds =>
         (sessionRequest tok env).sent = [⟨tok, true⟩] ∧
         (sessionRequest tok env).outcome =
           .error (.httpStatusError 401 env.response.detail)
     | .loginHttpError s =>
         (sessionRequest tok env).sent = [⟨tok, true⟩] ∧
         (sessionRequest tok env).outcome = .error (.loginError s)) := by
  cases hr : env.reauth <;> simp [sessionRequest, h, hr]

/-- C3 witness: a 401 followed by a successful login yields exactly the
original request and one replay under the fresh token. -/
theorem claim_c3_witness :
    envReauthOk.response.status = 401 ∧
    ((sessionRequest "old" envReauthOk).sent =
        [⟨"old", true⟩, ⟨"fresh", false⟩] ∧
     (sessionRequest "old" envReauthOk).outcome = .ok envReauthOk.replayResponse) :=
  ⟨rfl, claim_c3_theorem "old" envReauthOk rfl⟩

/-- C4 counterexample: on the claimed sequence
Pending/build/"" then Running/build/"install deps" then
Succeeded/build/"install deps" the poller yields exactly one stage line
(not two) and does not terminate after the third response — "Succeeded"
is not one of the source terminal labels ("Failed", "SUCCESS"), so a
fourth poll would be issued. -/
theorem claim_c4_counterexample :
    poll_deployment_status "tok" pollSeqSucceeded =
      ⟨[stageLine "build", substageLine "install deps"], 3, .ranOut⟩ ∧
    ((poll_deployment_status "tok" pollSeqSucceeded).lines.filter
        (fun l => pyStartsWith l "→")).length = 1 ∧
    (poll_deployment_status "tok" pollSeqSucceeded).ending ≠ .done := by
  decide

/-- C4 (amended): stage and substage lines are yielded when the field is
non-empty and differs from its previously observed value, and the stream
terminates exactly on the labels "Failed" and "SUCCESS"; with "SUCCESS" in
the third response the sequence yields exactly one stage line and one
substage line and stops after the third poll with no further request. -/
theorem claim_c4_theorem :
    poll_deployment_status "tok" pollSeqSUCCESS =
      ⟨[stageLine "build", substageLine "install deps"], 3, .done⟩ ∧
    ((poll_deployment_status "tok" pollSeqSUCCESS).lines.filter
        (fun l => pyStartsWith l "→")).length = 1 ∧
    ((poll_deployment_status "tok" pollSeqSUCCESS).lines.filter
        (fun l => pyStartsWith l "   ↳")).length = 1 := by
  decide

/-- C6 counterexample: a status poll answered with a plain 500 does not
yield a diagnostic line at all — handle_errors raises on the non-success
status inside the session, the wrapped error propagates out of the
generator, and zero lines are yielded — refuting the claim that the
poller yields one diagnostic line and terminates without raising. -/
theorem claim_c6_counterexample :
    poll_deployment_status "tok" [envPoll500] =
      ⟨[], 1, .raised (.httpStatusError 500 (some "boom"))⟩ := by
  decide

/-- C6 (amended): a non-success response can reach the generator only
when a 401 was replayed after successful reauthentication and the replay
is still non-success; in that case the poller yields exactly one
diagnostic line carrying the status code and the server detail and
terminates without issuing further polls; any other non-success status
raises an InferexApiError out of the sequence. -/
theorem claim_c6_theorem (tok newTok : String) (origDetail : Option String)
    (replay : HttpResponse) (rest : List SessionEnv)
    (h : 400 ≤ replay.status) :
    poll_deployment_status tok
        (⟨{ status := 401, detail := origDetail }, .newToken newTok, replay⟩ :: rest) =
      ⟨[httpErrorLine replay.status (pyStrOfOption replay.detail)], 1, .done⟩ := by
  have hok : replay.isOk = false := by
    simp [HttpResponse.isOk]
    omega
  simp [poll_deployment_status, pollLoop, sessionRequest, hok]

/-- C6 witness: a 401, a successful reauthentication, and a 502 replay
yield the single diagnostic line and terminate. -/
theorem claim_c6_witness :
    (400 : Nat) ≤ 502 ∧
    poll_deployment_status "tok" [envPollReplay502] =
      ⟨[httpErrorLine 502 "bad gateway"], 1, .done⟩ :=
  ⟨by decide, by
    simpa [envPollReplay502] using
      claim_c6_theorem "tok" "fresh" none
        { status := 502, detail := some "bad gateway" } [] (by decide)⟩

/-- C5: in every deploy execution the network events (project
registration, bundle upload) occur only after both validate_pipelines and
validate_requirements_txt have completed successfully — in particular,
any validation failure returns before any network request, so no network
call ever precedes a validation failure. -/
theorem claim_c5_theorem (tok : String) (env : DeployEnv) :
    netOnlyAfterValidation false false (deploy tok env).1 = true := by
  cases h1 : validate_pipelines env.files with
  | error e => simp [deploy, h1, netOnlyAfterValidation]
  | ok u =>
    cases h2 : validate_requirements_txt env.requirements env.files with
    | error e => simp [deploy, h1, h2, netOnlyAfterValidation]
    | ok w =>
      cases h3 : env.configResult with
      | error m => simp [deploy, h1, h2, h3, netOnlyAfterValidation]
      | ok nm =>
        cases h4 : (sessionRequest tok env.createEnv).outcome with
        | error e => simp [deploy, h1, h2, h3, h4, netOnlyAfterValidation]
        | ok r =>
          cases h5 : r.isOk with
          | false => simp [deploy, h1, h2, h3, h4, h5, netOnlyAfterValidation]
          | true =>
            cases h6 : make_archive env.archiveOpen env.addFails env.ixignore env.tree with
            | raisedUnboundLocal =>
              simp [deploy, h1, h2, h3, h4, h5, h6, netOnlyAfterValidation]
            | returned size arch errored =>
              cases h7 : (sessionRequest tok env.uploadEnv).outcome with
              | error e =>
                cases errored <;>
                  simp [deploy, h1, h2, h3, h4, h5, h6, h7, netOnlyAfterValidation]
              | ok r2 =>
                cases errored <;> cases h8 : env.stream <;>
                  simp [deploy, h1, h2, h3, h4, h5, h6, h7, h8, netOnlyAfterValidation]

/-- C8 counterexample: with an archive-format error raised while adding
weights.bin, make_archive logs the error and returns the partial archive
(weights.bin absent but its size counted), and deploy proceeds to upload
that partial archive and completes successfully — refuting the claim that
a failed bundle is treated as a fatal deploy error. -/
theorem claim_c8_counterexample :
    make_archive envDeployAddFails.archiveOpen envDeployAddFails.addFails
        envDeployAddFails.ixignore envDeployAddFails.tree =
      .returned 5 [["main.py"]] true ∧
    Event.archiveErrorLogged ∈ (deploy "tok" envDeployAddFails).1 ∧
    Event.netUpload ∈ (deploy "tok" envDeployAddFails).1 ∧
    (deploy "tok" envDeployAddFails).2 = .ok (.resp { status := 200 }) := by
  decide

/-- C8 (amended): an archive-format error while adding files is caught
and logged, the temporary file is still cleaned up by the enclosing
context, but deploy does not treat the failed bundle as fatal — it
proceeds to upload the partial archive; only a failure to open the
archive aborts deploy before the upload, and it does so through the
UnboundLocalError raised by the cleanup clause, with the temporary file
still removed. -/
theorem claim_c8_theorem (tok : String) (env : DeployEnv)
    (h : reachesBundle tok env = true) :
    (env.archiveOpen = .compressionError →
      (deploy tok env).2 = .error .unboundLocalError ∧
      Event.netUpload ∉ (deploy tok env).1 ∧
      Event.tempCleanup ∈ (deploy tok env).1) ∧
    (env.archiveOpen = .tarOk →
      Event.netUpload ∈ (deploy tok env).1 ∧
      Event.tempCleanup ∈ (deploy tok env).1) := by
  cases h1 : validate_pipelines env.files with
  | error e => rw [reachesBundle, h1] at h; simp at h
  | ok u =>
  cases h2 : validate_requirements_txt env.requirements env.files with
  | error e => rw [reachesBundle, h1, h2] at h; simp at h
  | ok w =>
  cases h3 : env.configResult with
  | error m => rw [reachesBundle, h1, h2, h3] at h; simp at h
  | ok nm =>
  cases h4 : (sessionRequest tok env.createEnv).outcome with
  | error e => rw [reachesBundle, h1, h2, h3, h4] at h; simp at h
  | ok r =>
  have h5 : r.isOk = true := by
    rw [reachesBundle, h1, h2, h3, h4] at h
    simpa using h
  constructor
  · intro hopen
    have h6 : make_archive env.archiveOpen env.addFails env.ixignore env.tree =
        .raisedUnboundLocal := by
      rw [hopen, make_archive]
    simp [deploy, h1, h2, h3, h4, h5, h6]
  · intro hopen
    rcases ha : addLoop env.addFails 0 [] (gather_file_paths env.ixignore env.tree) with
      ⟨size, arch, errored⟩
    have h6 : make_archive env.archiveOpen env.addFails env.ixignore env.tree =
        .returned size arch errored := by
      rw [hopen, make_archive, ha]
    cases h7 : (sessionRequest tok env.uploadEnv).outcome with
    | error e => cases errored <;> simp [deploy, h1, h2, h3, h4, h5, h6, h7]
    | ok r2 =>
      cases errored <;> cases h8 : env.stream <;>
        simp [deploy, h1, h2, h3, h4, h5, h6, h7, h8]

/-- C8 witness: the same passing environment but with tar open failing:
deploy aborts before the upload with UnboundLocalError and the temporary
file is cleaned up. -/
theorem claim_c8_witness :
    reachesBundle "tok" envDeployOpenFails = true ∧
    ((deploy "tok" envDeployOpenFails).2 = .error .unboundLocalError ∧
     Event.netUpload ∉ (deploy "tok" envDeployOpenFails).1 ∧
     Event.tempCleanup ∈ (deploy "tok" envDeployOpenFails).1) :=
  ⟨by decide, ( claim_c8_theorem "tok" envDeployOpenFails (by decide)).1 rfl⟩

/-- C1 (spec-modelled hasher): the pattern sets consulted by bundler and
hasher contain exactly the same patterns, and any file whose name matches
the ignore specification neither contributes an entry to the gathered
archive contents nor influences the archive or the content-hash
deployment identifier, wherever it sits in a directory listing. -/
theorem claim_c1_theorem (ix : Option (List String)) (n : String)
    (h : fileNameIgnored (bundlerIgnoreNodes ix) n = true) :
    (∀ p, p ∈ bundlerIgnoreNodes ix ↔ p ∈ hasherIgnoreNodes ix) ∧
    (∀ pfx front rest c,
      gatherList (bundlerIgnoreNodes ix) pfx (front ++ FSNode.file n c :: rest) =
        gatherList (bundlerIgnoreNodes ix) pfx (front ++ rest)) ∧
    (∀ front rest c,
      gather_file_paths ix (front ++ FSNode.file n c :: rest) =
        gather_file_paths ix (front ++ rest) ∧
      make_archive .tarOk [] ix (front ++ FSNode.file n c :: rest) =
        make_archive .tarOk [] ix (front ++ rest) ∧
      deploymentShaModel ix (front ++ FSNode.file n c :: rest) =
        deploymentShaModel ix (front ++ rest)) := by
  have hh : fileNameIgnored (hasherIgnoreNodes ix) n = true := by
    have hcomm := fileNameIgnored_append_comm
      (get_ixignore_filenodes ix) IGNORE_FILE_NODES n
    rw [hasherIgnoreNodes, hcomm]
    simpa [bundlerIgnoreNodes] using h
  refine ⟨?_, ?_, ?_⟩
  · intro p
    simp [bundlerIgnoreNodes, hasherIgnoreNodes, List.mem_append, or_comm]
  · intro pfx front rest c
    exact gatherList_drop_ignored_file _ pfx n c front rest h
  · intro front rest c
    have hb := gatherList_drop_ignored_file (bundlerIgnoreNodes ix) [] n c front rest h
    have hha := gatherList_drop_ignored_file (hasherIgnoreNodes ix) [] n c front rest hh
    refine ⟨hb, ?_, ?_⟩
    · simp [make_archive, gather_file_paths, hb]
    · simp [deploymentShaModel, hha]

/-- C1 witness: a data file listed in .ixignore is absent from the
gathered archive contents and leaves the deployment identifier
unchanged. -/
theorem claim_c1_witness :
    fileNameIgnored (bundlerIgnoreNodes (some ["data.bin"])) "data.bin" = true ∧
    (gather_file_paths (some ["data.bin"])
        (FSNode.file "data.bin" [1, 2, 3] :: [FSNode.file "main.py" [9]]) =
       gather_file_paths (some ["data.bin"]) [FSNode.file "main.py" [9]] ∧
     make_archive .tarOk [] (some ["data.bin"])
        (FSNode.file "data.bin" [1, 2, 3] :: [FSNode.file "main.py" [9]]) =
       make_archive .tarOk [] (some ["data.bin"]) [FSNode.file "main.py" [9]] ∧
     deploymentShaModel (some ["data.bin"])
        (FSNode.file "data.bin" [1, 2, 3] :: [FSNode.file "main.py" [9]]) =
       deploymentShaModel (some ["data.bin"]) [FSNode.file "main.py" [9]]) :=
  ⟨by decide,
   (claim_c1_theorem (some ["data.bin"]) "data.bin" (by decide)).2.2
     [] [FSNode.file "main.py" [9]] [1, 2, 3]⟩

end Inferex
